import Mathlib

/-!
Verification of the configuration-resolution and build-dispatch core of the
trunk packaging CLI (`src/cli/src/commands/build.rs`).

The Rust source is shallowly embedded: TOML documents become an inductive
value tree, the three file reads the command performs (Trunk.toml,
Cargo.toml, and an optional dockerfile) become an explicit file-system
record, and `BuildCommand::settings` / `BuildCommand::execute` become pure
Lean functions.  Calls to the external build collaborators (`build_pgrx`,
`build_generic`) are embedded as a `Dispatch` payload carried by the final
outcome, and `.unwrap()` panics become a distinguished `panic` outcome.
Observable side effects relevant to the spec (reading a dockerfile,
emitting the default-install warning, invoking a collaborator) are logged
as an event list.
-/

namespace Trunk

/-- A parsed TOML value, as far as `build.rs` inspects one: string leaves,
nested tables, and everything else collapsed to `other`. -/
inductive Value where
  | str (s : String)
  | table (t : List (String × Value))
  | other
deriving Repr

/-- A parsed TOML table: an association list of keys to values, in document
order, mirroring `toml::Table`. -/
abbrev Table := List (String × Value)

/-- Embedding of `toml::Table::get`: the value at the first matching key. -/
def Table.get (t : Table) (k : String) : Option Value :=
  (t.find? (fun p => p.1 == k)).map Prod.snd

/-- Embedding of `toml::Value::as_table`. -/
def Value.as_table : Value → Option Table
  | .table t => some t
  | _ => none

/-- Embedding of `toml::Table::contains_key`. -/
def Table.contains_key (t : Table) (k : String) : Bool :=
  t.any (fun p => p.1 == k)

/-- The CLI arguments of the build subcommand (struct `BuildCommand` in
`build.rs`): `path` defaults to "." at argument-parsing time, every other
field is an optional explicit override. -/
structure BuildCommand where
  path : String
  output_path : Option String
  version : Option String
  name : Option String
  platform : Option String
  dockerfile_path : Option String
  install_command : Option String
deriving Repr

/-- The resolved settings record (struct `BuildSettings` in `build.rs`). -/
structure BuildSettings where
  path : String
  output_path : String
  version : Option String
  name : Option String
  platform : Option String
  dockerfile_path : Option String
  install_command : Option String
deriving Repr

/-- Embedding of the Rust `Path::new(a).join(b).to_str().unwrap()` on UTF-8
strings: an absolute `b` replaces `a`, otherwise `b` is appended with a
single separator. -/
def pathJoin (a b : String) : String :=
  if b.data.head? = some '/' then b
  else if a.data = [] then b
  else if a.data.getLast? = some '/' then a ++ b
  else a ++ "/" ++ b

/-- Outcome of opening and parsing Trunk.toml at `<path>/Trunk.toml`:
the open may fail (`absent`, not an error — `build.rs` lines 50-56), the
parse may fail (`invalid`, a hard `ConfigError` via
`config::parse_trunk_toml`), or a table is produced. -/
inductive TomlFile where
  | absent
  | invalid
  | parsed (t : Table)
deriving Repr

/-- The optional manifest document a `TomlFile` yields when it does not
abort resolution: `Ok(None)` for a missing file, `Ok(Some(table))` for a
parsed one. -/
def docOf : TomlFile → Option Table
  | .parsed t => some t
  | _ => none

/-- Modelled from the spec: `config::parse_trunk_toml` and the surrounding
`File::open` match in `BuildCommand::settings` produce either an absent
document, a parse error (a fatal `ConfigError`), or a parsed table; the
crate `config` module itself is not among the provided sources, so the
tri-state read result is taken as primitive here. -/
def trunkTomlRead (tf : TomlFile) : Except Unit (Option Table) :=
  match tf with
  | .invalid => .error ()
  | tf => .ok (docOf tf)

/-- Modelled from the spec: the manifest side of the resolution rule of
spec section 4.2 — look up `section.key` in the optional manifest document;
a missing document, section, or key, or a non-string value, yields
absent. -/
def manifestLookup (doc : Option Table) (section_ key : String) : Option String :=
  match doc with
  | none => none
  | some t =>
    match Table.get t section_ with
    | some (.table sec) =>
      match Table.get sec key with
      | some (.str v) => some v
      | _ => none
    | _ => none

/-- Modelled from the spec: `config::get_from_trunk_toml_if_not_set_on_cli`
is defined in the crate `config` module, outside the provided sources.
Spec section 4.2: if the CLI value is present, return it unmodified and
never consult the manifest; otherwise look up `section.key` in the manifest
document and return it if present, else return absent. -/
def get_from_trunk_toml_if_not_set_on_cli (cli : Option String)
    (doc : Option Table) (section_ key : String) : Option String :=
  match cli with
  | some v => some v
  | none => manifestLookup doc section_ key

/-- The typed errors the command can return (each `anyhow!`/`?` site in
`build.rs`): Trunk.toml parse failure, the pgrx name/version conflict,
the missing name/version for generic builds, and a dockerfile read
failure. -/
inductive BuildError where
  | configError
  | conflictingOverride
  | missingRequiredField
  | ioError
deriving Repr, DecidableEq

/-- Embedding of `BuildCommand::settings` (lines 44-133 of `build.rs`). -/
def settings (cmd : BuildCommand) (tf : TomlFile) : Except BuildError BuildSettings :=
  match trunkTomlRead tf with
  | .error _ => .error .configError
  | .ok trunk_toml =>
    let path := cmd.path
    let output_path :=
      match cmd.output_path with
      | some o => o
      | none => pathJoin path ".trunk"
    let name := get_from_trunk_toml_if_not_set_on_cli cmd.name trunk_toml
      "extension" "name"
    let version := get_from_trunk_toml_if_not_set_on_cli cmd.version trunk_toml
      "extension" "version"
    let platform := get_from_trunk_toml_if_not_set_on_cli cmd.platform trunk_toml
      "build" "platform"
    let install_command := get_from_trunk_toml_if_not_set_on_cli
      cmd.install_command trunk_toml "build" "install_command"
    let dockerfile_path :=
      match cmd.dockerfile_path with
      | some p => some p
      | none =>
        match get_from_trunk_toml_if_not_set_on_cli none trunk_toml
          "build" "dockerfile" with
        | some trunk_toml_dockerfile => some (pathJoin path trunk_toml_dockerfile)
        | none => none
    .ok { path, output_path, version, name, platform, dockerfile_path,
          install_command }

/-- Outcome of reading and parsing Cargo.toml when the file exists:
`read_to_string` may fail, `toml::from_str` may fail, or a table is
produced (`build.rs` lines 143-144, both failure modes behind
`.unwrap()`). -/
inductive CargoFile where
  | unreadable
  | invalid
  | parsed (t : Table)
deriving Repr

/-- The file-system state one run of `BuildCommand::execute` observes:
the Trunk.toml read result, the Cargo.toml read result (`none` when
`path.join("Cargo.toml").exists()` is false), and the contents behind any
other path `fs::read_to_string` may be pointed at (`none` for a failing
read). -/
structure FS where
  trunkToml : TomlFile
  cargoToml : Option CargoFile
  readFile : String → Option String

/-- Modelled from the spec: the compiled-in default build-definition
template `include_str!("./builders/Dockerfile.generic")`, a static text
asset whose file is not among the provided sources; its content is opaque
to the dispatch logic. -/
def dockerfileGenericDefault : String := "Dockerfile.generic contents"

/-- The payload handed to the chosen external build collaborator: the
argument lists of the `build_pgrx` and `build_generic` call sites in
`build.rs` (the forwarded `Task` handle is omitted). -/
inductive Dispatch where
  | pgrx (dockerfile_path : Option String) (platform : Option String)
      (path : String) (output_path : String) (cargo_toml : Table)
  | generic (dockerfile : String) (platform : Option String)
      (install_command_split : List String) (path : String)
      (output_path : String) (name : String) (version : String)
deriving Repr

/-- Result of one run of `execute`: a successful dispatch to exactly one
collaborator, a typed error returned to the caller, or a panic from one of
the `.unwrap()`/`.expect()` sites. -/
inductive ExecOutcome where
  | ok (d : Dispatch)
  | error (e : BuildError)
  | panic
deriving Repr

/-- Observable side effects of `execute` that the spec talks about:
reading a build-definition file, printing the default-install warning, and
invoking a build collaborator. -/
inductive Event where
  | readDockerfile (p : String)
  | warnDefaultInstall
  | invokePgrx
  | invokeGeneric
deriving Repr, DecidableEq

/-- Embedding of the generic tail of `BuildCommand::execute` (`build.rs`
lines 165-208): the name/version presence check, the dockerfile read or
compiled-in fallback, the install-command split, and the `build_generic`
call. -/
def genericBranch (readFile : String → Option String)
    (bs : BuildSettings) : ExecOutcome × List Event :=
  if bs.version.isNone || bs.name.isNone then
    (.error .missingRequiredField, [])
  else
    let dockerfileStep : Except BuildError String × List Event :=
      match bs.dockerfile_path with
      | some p =>
        (match readFile p with
         | some contents => .ok contents
         | none => .error .ioError,
         [.readDockerfile p])
      | none => (.ok dockerfileGenericDefault, [])
    match dockerfileStep with
    | (.error e, evs) => (.error e, evs)
    | (.ok dockerfile, evs) =>
      let installStep : List String × List Event :=
        match bs.install_command with
        | some install_command => (["/bin/sh", "-c", install_command], [])
        | none => (["make", "install"], [.warnDefaultInstall])
      match bs.name, bs.version with
      | some n, some v =>
        (.ok (.generic dockerfile bs.platform installStep.1 bs.path
            bs.output_path n v),
         evs ++ installStep.2 ++ [.invokeGeneric])
      | _, _ => (.panic, evs ++ installStep.2)

/-- Embedding of `BuildCommand::execute` (`build.rs` lines 138-209):
settings resolution, Cargo.toml-based project-type detection with its
`.unwrap()` panics, the pgrx conflict check, and dispatch to exactly one
collaborator. -/
def execute (cmd : BuildCommand) (fs : FS) : ExecOutcome × List Event :=
  match settings cmd fs.trunkToml with
  | .error e => (.error e, [])
  | .ok bs =>
    match fs.cargoToml with
    | some .unreadable => (.panic, [])
    | some .invalid => (.panic, [])
    | some (.parsed cargo_toml) =>
      match (Table.get cargo_toml "dependencies").bind Value.as_table with
      | none => (.panic, [])
      | some dependencies =>
        if Table.contains_key dependencies "pgrx" then
          if bs.version.isSome || bs.name.isSome then
            (.error .conflictingOverride, [])
          else
            (.ok (.pgrx bs.dockerfile_path bs.platform bs.path bs.output_path
                cargo_toml),
             [.invokePgrx])
        else
          genericBranch fs.readFile bs
    | none => genericBranch fs.readFile bs

/-- An outcome that can only arise on the generic build path: a generic
dispatch, the missing name/version error, or a dockerfile read error. -/
def isGenericOutcome : ExecOutcome → Bool
  | .ok (.generic ..) => true
  | .error .missingRequiredField => true
  | .error .ioError => true
  | _ => false

/-- An outcome that can only arise on the specialized (pgrx) build path:
a pgrx dispatch or the conflicting-override error. -/
def isSpecializedOutcome : ExecOutcome → Bool
  | .ok (.pgrx ..) => true
  | .error .conflictingOverride => true
  | _ => false

/-- Outcomes that return a typed error value to the caller. -/
def isErrorOutcome : ExecOutcome → Bool
  | .error _ => true
  | _ => false

/-- The project is dispatched generically: no Cargo.toml, or a parsed
Cargo.toml whose dependencies table lacks the pgrx key. -/
def onGenericPath (fs : FS) : Bool :=
  match fs.cargoToml with
  | none => true
  | some (.parsed cargo_toml) =>
    match (Table.get cargo_toml "dependencies").bind Value.as_table with
    | some dependencies => !(Table.contains_key dependencies "pgrx")
    | none => false
  | some _ => false

/-- Events that read a build-definition (dockerfile) file. -/
def isReadEvent : Event → Bool
  | .readDockerfile _ => true
  | _ => false

/-- Events that invoke one of the external build collaborators. -/
def isInvokeEvent : Event → Bool
  | .invokePgrx => true
  | .invokeGeneric => true
  | _ => false

/-! Concrete inputs used by the witness and counterexample theorems. -/

/-- A build command with no CLI overrides at all, rooted at "proj". -/
def cmdNone : BuildCommand :=
  { path := "proj", output_path := none, version := none, name := none,
    platform := none, dockerfile_path := none, install_command := none }

/-- The settings `cmdNone` resolves to when no manifest is found. -/
def bsNone : BuildSettings :=
  { path := "proj", output_path := "proj/.trunk", version := none,
    name := none, platform := none, dockerfile_path := none,
    install_command := none }

/-- A dependencies table declaring pgrx. -/
def depsPgrx : Table := [("pgrx", Value.str "0.11.2")]

/-- A Cargo.toml whose dependencies table declares pgrx. -/
def cargoPgrx : Table := [("dependencies", Value.table depsPgrx)]

/-- A dependencies table without pgrx. -/
def depsPlain : Table := [("serde", Value.str "1")]

/-- A Cargo.toml whose dependencies table does not declare pgrx. -/
def cargoPlain : Table := [("dependencies", Value.table depsPlain)]

/-- A Cargo.toml that parses but has no top-level dependencies table. -/
def cargoNoDeps : Table := [("package", Value.table [("name", Value.str "x")])]

/-- A read function behind which every path is unreadable. -/
def noRead : String → Option String := fun _ => none

/-- File system: no Trunk.toml, Cargo.toml declaring pgrx. -/
def fsPgrx : FS :=
  { trunkToml := .absent, cargoToml := some (.parsed cargoPgrx),
    readFile := noRead }

/-- File system: no Trunk.toml, Cargo.toml without the pgrx dependency. -/
def fsPlain : FS :=
  { trunkToml := .absent, cargoToml := some (.parsed cargoPlain),
    readFile := noRead }

/-- File system: no Trunk.toml and no Cargo.toml. -/
def fsNoCargo : FS :=
  { trunkToml := .absent, cargoToml := none, readFile := noRead }

/-- File system: Cargo.toml exists but cannot be read. -/
def fsCargoUnreadable : FS :=
  { trunkToml := .absent, cargoToml := some .unreadable, readFile := noRead }

/-- File system: Cargo.toml exists but is not valid TOML. -/
def fsCargoInvalid : FS :=
  { trunkToml := .absent, cargoToml := some .invalid, readFile := noRead }

/-- File system: Cargo.toml parses but lacks a dependencies table. -/
def fsCargoNoDeps : FS :=
  { trunkToml := .absent, cargoToml := some (.parsed cargoNoDeps),
    readFile := noRead }

/-- A Trunk.toml supplying a name that differs from the CLI name, a
version, and a platform. -/
def c1doc : Table :=
  [("extension", Value.table
      [("name", Value.str "manifestname"), ("version", Value.str "1.0")]),
   ("build", Value.table [("platform", Value.str "linux/amd64")])]

/-- CLI with an explicit name, nothing else. -/
def c1cmd : BuildCommand := { cmdNone with name := some "cliname" }

/-- Settings resolved from `c1cmd` against `c1doc`. -/
def c1bs : BuildSettings :=
  { path := "proj", output_path := "proj/.trunk", version := some "1.0",
    name := some "cliname", platform := some "linux/amd64",
    dockerfile_path := none, install_command := none }

/-- A Trunk.toml supplying extension name and version only. -/
def c2trunk : Table :=
  [("extension", Value.table
      [("name", Value.str "foo"), ("version", Value.str "1.0")])]

/-- File system: Trunk.toml with name and version, pgrx Cargo.toml. -/
def c2fs : FS :=
  { trunkToml := .parsed c2trunk, cargoToml := some (.parsed cargoPgrx),
    readFile := noRead }

/-- CLI with an explicit name, used against a pgrx project. -/
def c2wcmd : BuildCommand := { cmdNone with name := some "foo" }

/-- Settings resolved from `c2wcmd` with no manifest. -/
def c2wbs : BuildSettings := { bsNone with name := some "foo" }

/-- CLI with an explicit dockerfile path. -/
def c4cmd : BuildCommand :=
  { cmdNone with dockerfile_path := some "/abs/x.def" }

/-- Settings resolved from `c4cmd` with no manifest. -/
def c4bsCli : BuildSettings :=
  { bsNone with dockerfile_path := some "/abs/x.def" }

/-- A Trunk.toml supplying only a build.dockerfile reference. -/
def c4doc : Table :=
  [("build", Value.table [("dockerfile", Value.str "x.def")])]

/-- Settings resolved from `cmdNone` against `c4doc`. -/
def c4bsManifest : BuildSettings :=
  { bsNone with dockerfile_path := some "proj/x.def" }

/-- CLI supplying name and version but no install command. -/
def cmdFull : BuildCommand :=
  { cmdNone with name := some "foo", version := some "1.0" }

/-- Settings resolved from `cmdFull` with no manifest. -/
def bsFull : BuildSettings :=
  { bsNone with name := some "foo", version := some "1.0" }

/-- CLI supplying name, version and an install command. -/
def c5cmdInstall : BuildCommand :=
  { cmdFull with install_command := some "pip install ." }

/-- Settings resolved from `c5cmdInstall` with no manifest. -/
def c5bsInstall : BuildSettings :=
  { bsFull with install_command := some "pip install ." }

/-! Helper lemmas about `settings`, `execute` and `genericBranch`. -/

/-- The three branches of the generic override rule of spec section 4.2. -/
lemma resolve_cases (cli : Option String) (doc : Option Table) (s k : String) :
    (∀ v, cli = some v → get_from_trunk_toml_if_not_set_on_cli cli doc s k = some v) ∧
    (cli = none → ∀ v, manifestLookup doc s k = some v →
      get_from_trunk_toml_if_not_set_on_cli cli doc s k = some v) ∧
    (cli = none → manifestLookup doc s k = none →
      get_from_trunk_toml_if_not_set_on_cli cli doc s k = none) := by
  cases cli <;> simp [get_from_trunk_toml_if_not_set_on_cli]

/-- Inversion for `settings`: a successful resolution fixes every field of
the produced record. -/
lemma settings_ok_inv (cmd : BuildCommand) (tf : TomlFile) (bs : BuildSettings)
    (hs : settings cmd tf = Except.ok bs) :
    bs.path = cmd.path ∧
    bs.output_path = (match cmd.output_path with
      | some o => o
      | none => pathJoin cmd.path ".trunk") ∧
    bs.name = get_from_trunk_toml_if_not_set_on_cli cmd.name (docOf tf) "extension" "name" ∧
    bs.version = get_from_trunk_toml_if_not_set_on_cli cmd.version (docOf tf) "extension" "version" ∧
    bs.platform = get_from_trunk_toml_if_not_set_on_cli cmd.platform (docOf tf) "build" "platform" ∧
    bs.install_command = get_from_trunk_toml_if_not_set_on_cli cmd.install_command (docOf tf) "build" "install_command" ∧
    bs.dockerfile_path = (match cmd.dockerfile_path with
      | some p => some p
      | none =>
        match get_from_trunk_toml_if_not_set_on_cli none (docOf tf) "build" "dockerfile" with
        | some d => some (pathJoin cmd.path d)
        | none => none) := by
  cases tf <;> simp only [settings, trunkTomlRead, docOf, Except.ok.injEq] at hs
  case invalid => exact absurd hs (by simp)
  all_goals subst hs; simp [docOf]

/-- A settings error propagates out of `execute` with no side effects. -/
lemma execute_settings_error (cmd : BuildCommand) (fs : FS) (e : BuildError)
    (hs : settings cmd fs.trunkToml = Except.error e) :
    execute cmd fs = (ExecOutcome.error e, []) := by
  unfold execute
  rw [hs]

/-- On the generic path, `execute` is the generic tail. -/
lemma execute_eq_genericBranch (cmd : BuildCommand) (fs : FS) (bs : BuildSettings)
    (hs : settings cmd fs.trunkToml = Except.ok bs)
    (hg : onGenericPath fs = true) :
    execute cmd fs = genericBranch fs.readFile bs := by
  unfold execute
  rw [hs]
  rcases hfc : fs.cargoToml with _ | cf
  · simp
  · cases cf with
    | unreadable => simp [onGenericPath, hfc] at hg
    | invalid => simp [onGenericPath, hfc] at hg
    | parsed cargo =>
      rcases hd : (Table.get cargo "dependencies").bind Value.as_table with _ | deps
      · simp [onGenericPath, hfc, hd] at hg
      · have hp : Table.contains_key deps "pgrx" = false := by
          simpa [onGenericPath, hfc, hd] using hg
        simp [hd, hp]

/-- On the pgrx path, `execute` is the conflict check followed by the pgrx
dispatch. -/
lemma execute_specialized (cmd : BuildCommand) (fs : FS) (bs : BuildSettings)
    (cargo deps : Table)
    (hs : settings cmd fs.trunkToml = Except.ok bs)
    (hc : fs.cargoToml = some (CargoFile.parsed cargo))
    (hd : (Table.get cargo "dependencies").bind Value.as_table = some deps)
    (hp : Table.contains_key deps "pgrx" = true) :
    execute cmd fs =
      if bs.version.isSome || bs.name.isSome then
        (ExecOutcome.error BuildError.conflictingOverride, [])
      else
        (ExecOutcome.ok (Dispatch.pgrx bs.dockerfile_path bs.platform bs.path
            bs.output_path cargo),
         [Event.invokePgrx]) := by
  unfold execute
  rw [hs]
  simp [hc, hd, hp]

/-- An unreadable Cargo.toml panics the run. -/
lemma execute_panic_unreadable (cmd : BuildCommand) (fs : FS) (bs : BuildSettings)
    (hs : settings cmd fs.trunkToml = Except.ok bs)
    (hc : fs.cargoToml = some CargoFile.unreadable) :
    execute cmd fs = (ExecOutcome.panic, []) := by
  unfold execute
  rw [hs]
  simp [hc]

/-- A Cargo.toml that fails to parse panics the run. -/
lemma execute_panic_invalid (cmd : BuildCommand) (fs : FS) (bs : BuildSettings)
    (hs : settings cmd fs.trunkToml = Except.ok bs)
    (hc : fs.cargoToml = some CargoFile.invalid) :
    execute cmd fs = (ExecOutcome.panic, []) := by
  unfold execute
  rw [hs]
  simp [hc]

/-- A Cargo.toml without a dependencies table panics the run. -/
lemma execute_panic_nodeps (cmd : BuildCommand) (fs : FS) (bs : BuildSettings)
    (t : Table)
    (hs : settings cmd fs.trunkToml = Except.ok bs)
    (hc : fs.cargoToml = some (CargoFile.parsed t))
    (hd : (Table.get t "dependencies").bind Value.as_table = none) :
    execute cmd fs = (ExecOutcome.panic, []) := by
  unfold execute
  rw [hs]
  simp [hc, hd]

/-- Exhaustive shape of `execute` after a successful settings resolution:
a Cargo.toml panic, a pgrx dispatch, the conflicting-override error, or
the generic tail. -/
lemma execute_shape (cmd : BuildCommand) (fs : FS) (bs : BuildSettings)
    (hs : settings cmd fs.trunkToml = Except.ok bs) :
    execute cmd fs = (ExecOutcome.panic, []) ∨
    (∃ cargo, execute cmd fs = (ExecOutcome.ok (Dispatch.pgrx bs.dockerfile_path
        bs.platform bs.path bs.output_path cargo), [Event.invokePgrx])) ∨
    execute cmd fs = (ExecOutcome.error BuildError.conflictingOverride, []) ∨
    execute cmd fs = genericBranch fs.readFile bs := by
  rcases hfc : fs.cargoToml with _ | cf
  · exact Or.inr (Or.inr (Or.inr (execute_eq_genericBranch cmd fs bs hs
      (by simp [onGenericPath, hfc]))))
  cases cf with
  | unreadable => exact Or.inl (execute_panic_unreadable cmd fs bs hs hfc)
  | invalid => exact Or.inl (execute_panic_invalid cmd fs bs hs hfc)
  | parsed cargo =>
    rcases hd : (Table.get cargo "dependencies").bind Value.as_table with _ | deps
    · exact Or.inl (execute_panic_nodeps cmd fs bs cargo hs hfc hd)
    rcases hp : Table.contains_key deps "pgrx" with _ | _
    · exact Or.inr (Or.inr (Or.inr (execute_eq_genericBranch cmd fs bs hs
        (by simp [onGenericPath, hfc, hd, hp]))))
    · have hspec := execute_specialized cmd fs bs cargo deps hs hfc hd hp
      rcases hvn : (bs.version.isSome || bs.name.isSome) with _ | _
      · rw [hvn] at hspec
        exact Or.inr (Or.inl ⟨cargo, by simpa using hspec⟩)
      · rw [hvn] at hspec
        exact Or.inr (Or.inr (Or.inl (by simpa using hspec)))

/-- The generic tail always produces a generic-path outcome. -/
lemma genericBranch_isGeneric (rf : String → Option String) (bs : BuildSettings) :
    isGenericOutcome (genericBranch rf bs).1 = true := by
  unfold genericBranch
  rcases hv : bs.version with _ | v <;> rcases hn : bs.name with _ | n <;>
    simp [isGenericOutcome] <;>
    rcases hd : bs.dockerfile_path with _ | p <;>
    rcases hic : bs.install_command with _ | ic <;>
    simp [isGenericOutcome] <;>
    rcases hr : rf p with _ | contents <;>
    simp [isGenericOutcome]

/-- Inversion for a successful generic dispatch: the name and version it
carries come from the resolved settings, and the install vector is the
shell split of the resolved install command or the make-install default
(warned about). -/
lemma genericBranch_ok_inv (rf : String → Option String) (bs : BuildSettings)
    (df : String) (pl : Option String) (inst : List String)
    (p op n v : String)
    (h : (genericBranch rf bs).1 =
      ExecOutcome.ok (Dispatch.generic df pl inst p op n v)) :
    bs.name = some n ∧ bs.version = some v ∧
    (∀ ic, bs.install_command = some ic → inst = ["/bin/sh", "-c", ic]) ∧
    (bs.install_command = none → inst = ["make", "install"] ∧
      Event.warnDefaultInstall ∈ (genericBranch rf bs).2) := by
  unfold genericBranch at *
  rcases hv : bs.version with _ | v' <;> rcases hn : bs.name with _ | n' <;>
    simp [hv, hn] at h ⊢ <;>
  rcases hd : bs.dockerfile_path with _ | pth <;>
    rcases hic : bs.install_command with _ | ic' <;>
    simp [hd, hic] at h ⊢ <;>
  first
  | (obtain ⟨-, -, hinst, -, -, hnn, hvv⟩ := h
     exact ⟨hnn, hvv, hinst.symm⟩)
  | (rcases hr : rf pth with _ | contents <;> simp [hr] at h ⊢ <;>
     obtain ⟨-, -, hinst, -, -, hnn, hvv⟩ := h <;>
     exact ⟨hnn, hvv, hinst.symm⟩)

/-- The generic tail either fails the name/version presence check with the
missing-field error and no side effects, or produces neither of the two
validation errors. -/
lemma genericBranch_cases (rf : String → Option String) (bs : BuildSettings) :
    genericBranch rf bs = (ExecOutcome.error BuildError.missingRequiredField, []) ∨
    ((genericBranch rf bs).1 ≠ ExecOutcome.error BuildError.missingRequiredField ∧
     (genericBranch rf bs).1 ≠ ExecOutcome.error BuildError.conflictingOverride) := by
  unfold genericBranch
  rcases hv : bs.version with _ | v <;> rcases hn : bs.name with _ | n <;>
    simp <;>
  rcases hd : bs.dockerfile_path with _ | pth <;>
    rcases hic : bs.install_command with _ | ic <;>
    simp <;>
  rcases hr : rf pth with _ | contents <;> simp

/-- With both name and version absent the generic tail fails at the
presence check. -/
lemma genericBranch_missing (rf : String → Option String) (bs : BuildSettings)
    (hn : bs.name = none) (hv : bs.version = none) :
    genericBranch rf bs = (ExecOutcome.error BuildError.missingRequiredField, []) := by
  unfold genericBranch
  simp [hn, hv]

/-! Claim theorems. -/

/-- C1: for each of the fields name, version, platform and install_command,
a supplied CLI value wins regardless of manifest content; with no CLI
value the resolved value equals the manifest value under the corresponding
section and key when present; and it is absent when neither source
supplies one. -/
theorem claim_c1_field_precedence (cmd : BuildCommand) (tf : TomlFile)
    (bs : BuildSettings) (hs : settings cmd tf = Except.ok bs) :
    ((∀ v, cmd.name = some v → bs.name = some v) ∧
     (cmd.name = none → ∀ v, manifestLookup (docOf tf) "extension" "name" = some v →
       bs.name = some v) ∧
     (cmd.name = none → manifestLookup (docOf tf) "extension" "name" = none →
       bs.name = none)) ∧
    ((∀ v, cmd.version = some v → bs.version = some v) ∧
     (cmd.version = none → ∀ v, manifestLookup (docOf tf) "extension" "version" = some v →
       bs.version = some v) ∧
     (cmd.version = none → manifestLookup (docOf tf) "extension" "version" = none →
       bs.version = none)) ∧
    ((∀ v, cmd.platform = some v → bs.platform = some v) ∧
     (cmd.platform = none → ∀ v, manifestLookup (docOf tf) "build" "platform" = some v →
       bs.platform = some v) ∧
     (cmd.platform = none → manifestLookup (docOf tf) "build" "platform" = none →
       bs.platform = none)) ∧
    ((∀ v, cmd.install_command = some v → bs.install_command = some v) ∧
     (cmd.install_command = none →
       ∀ v, manifestLookup (docOf tf) "build" "install_command" = some v →
       bs.install_command = some v) ∧
     (cmd.install_command = none →
       manifestLookup (docOf tf) "build" "install_command" = none →
       bs.install_command = none)) := by
  obtain ⟨-, -, hname, hver, hplat, hinst, -⟩ := settings_ok_inv cmd tf bs hs
  rw [hname, hver, hplat, hinst]
  exact ⟨resolve_cases cmd.name (docOf tf) "extension" "name",
    resolve_cases cmd.version (docOf tf) "extension" "version",
    resolve_cases cmd.platform (docOf tf) "build" "platform",
    resolve_cases cmd.install_command (docOf tf) "build" "install_command"⟩

/-- C1 witness: against a manifest whose extension name differs, a CLI
name wins, a manifest-only version is taken, and install_command stays
absent when neither source supplies one. -/
theorem claim_c1_witness :
    c1bs.name = some "cliname" ∧ c1bs.version = some "1.0" ∧
    c1bs.install_command = none := by
  have h := claim_c1_field_precedence c1cmd (TomlFile.parsed c1doc) c1bs rfl
  exact ⟨h.1.1 "cliname" rfl, h.2.1.2.1 rfl "1.0" rfl, h.2.2.2.2.2 rfl rfl⟩

/-- C9: an explicit CLI output path is used verbatim; otherwise the output
path is the project path joined with the fixed subdirectory name
.trunk. -/
theorem claim_c9_output_path (cmd : BuildCommand) (tf : TomlFile)
    (bs : BuildSettings) (hs : settings cmd tf = Except.ok bs) :
    (∀ o, cmd.output_path = some o → bs.output_path = o) ∧
    (cmd.output_path = none → bs.output_path = pathJoin cmd.path ".trunk") := by
  obtain ⟨-, hout, -, -, -, -, -⟩ := settings_ok_inv cmd tf bs hs
  constructor
  · intro o ho
    rw [hout, ho]
  · intro ho
    rw [hout, ho]

/-- C9 witness: project path "proj" with no override resolves to
"proj/.trunk". -/
theorem claim_c9_witness : bsNone.output_path = "proj/.trunk" :=
  (claim_c9_output_path cmdNone TomlFile.absent bsNone rfl).2 rfl

/-- C4: a CLI dockerfile path is taken unchanged; a manifest
build.dockerfile reference is joined onto the project path; with neither,
the resolved path is absent. -/
theorem claim_c4_dockerfile_path (cmd : BuildCommand) (tf : TomlFile)
    (bs : BuildSettings) (hs : settings cmd tf = Except.ok bs) :
    (∀ p, cmd.dockerfile_path = some p → bs.dockerfile_path = some p) ∧
    (cmd.dockerfile_path = none →
      (∀ d, manifestLookup (docOf tf) "build" "dockerfile" = some d →
        bs.dockerfile_path = some (pathJoin cmd.path d)) ∧
      (manifestLookup (docOf tf) "build" "dockerfile" = none →
        bs.dockerfile_path = none)) := by
  obtain ⟨-, -, -, -, -, -, hdf⟩ := settings_ok_inv cmd tf bs hs
  constructor
  · intro p hp
    rw [hdf, hp]
  · intro hnone
    constructor
    · intro d hd
      rw [hdf, hnone]
      simp [get_from_trunk_toml_if_not_set_on_cli, hd]
    · intro hd
      rw [hdf, hnone]
      simp [get_from_trunk_toml_if_not_set_on_cli, hd]

/-- C4 witness: the CLI path "/abs/x.def" stays unchanged; the manifest
reference "x.def" under project path "proj" becomes "proj/x.def". -/
theorem claim_c4_witness :
    c4bsCli.dockerfile_path = some "/abs/x.def" ∧
    c4bsManifest.dockerfile_path = some "proj/x.def" := by
  refine ⟨(claim_c4_dockerfile_path c4cmd TomlFile.absent c4bsCli rfl).1
    "/abs/x.def" rfl, ?_⟩
  have h := (claim_c4_dockerfile_path cmdNone (TomlFile.parsed c4doc)
    c4bsManifest rfl).2 rfl
  exact h.1 "x.def" rfl

/-- C3: a parsed Cargo.toml whose dependencies table contains pgrx sends
the run down the specialized path; a dependencies table without pgrx, or
no Cargo.toml at all, sends it down the generic path. -/
theorem claim_c3_project_type_detection (cmd : BuildCommand) (fs : FS)
    (bs : BuildSettings) (hs : settings cmd fs.trunkToml = Except.ok bs) :
    (∀ cargo deps, fs.cargoToml = some (CargoFile.parsed cargo) →
      (Table.get cargo "dependencies").bind Value.as_table = some deps →
      ((Table.contains_key deps "pgrx" = true →
        isSpecializedOutcome (execute cmd fs).1 = true) ∧
       (Table.contains_key deps "pgrx" = false →
        isGenericOutcome (execute cmd fs).1 = true))) ∧
    (fs.cargoToml = none → isGenericOutcome (execute cmd fs).1 = true) := by
  constructor
  · intro cargo deps hc hd
    constructor
    · intro hp
      have h := execute_specialized cmd fs bs cargo deps hs hc hd hp
      rcases hvn : (bs.version.isSome || bs.name.isSome) with _ | _ <;>
        rw [hvn] at h <;> simp only [if_true, if_false, Bool.false_eq_true] at h <;>
        rw [h] <;> rfl
    · intro hp
      have h := execute_eq_genericBranch cmd fs bs hs
        (by simp [onGenericPath, hc, hd, hp])
      rw [h]
      exact genericBranch_isGeneric fs.readFile bs
  · intro hc
    have h := execute_eq_genericBranch cmd fs bs hs (by simp [onGenericPath, hc])
    rw [h]
    exact genericBranch_isGeneric fs.readFile bs

/-- C3 witness: a pgrx Cargo.toml dispatches specialized; a Cargo.toml
without pgrx and a missing Cargo.toml both dispatch generic. -/
theorem claim_c3_witness :
    isSpecializedOutcome (execute cmdNone fsPgrx).1 = true ∧
    isGenericOutcome (execute cmdNone fsPlain).1 = true ∧
    isGenericOutcome (execute cmdNone fsNoCargo).1 = true := by
  refine ⟨?_, ?_, ?_⟩
  · exact ((claim_c3_project_type_detection cmdNone fsPgrx bsNone rfl).1
      cargoPgrx depsPgrx rfl rfl).1 rfl
  · exact ((claim_c3_project_type_detection cmdNone fsPlain bsNone rfl).1
      cargoPlain depsPlain rfl rfl).2 rfl
  · exact (claim_c3_project_type_detection cmdNone fsNoCargo bsNone rfl).2 rfl

/-- C2 counterexample: the claim says only name or version explicitly
requested on the command line trigger the conflicting-override failure,
and manifest-only values do not. Here the caller requests neither, the
Trunk.toml manifest supplies both, the project is pgrx, and dispatch still
fails with the conflicting-override error, because the code checks the
resolved values, not the CLI ones. -/
theorem claim_c2_counterexample :
    c2fs.cargoToml = some (CargoFile.parsed cargoPgrx) ∧
    Table.contains_key depsPgrx "pgrx" = true ∧
    cmdNone.name = none ∧ cmdNone.version = none ∧
    (execute cmdNone c2fs).1 = ExecOutcome.error BuildError.conflictingOverride :=
  ⟨rfl, rfl, rfl, rfl, rfl⟩

/-- C2 amended: for a pgrx project, dispatch fails with the
conflicting-override error exactly when the resolved name or version is
present, whether it came from the command line or from the project
manifest Trunk.toml. -/
theorem claim_c2_amended_conflict_iff (cmd : BuildCommand) (fs : FS)
    (bs : BuildSettings) (cargo deps : Table)
    (hs : settings cmd fs.trunkToml = Except.ok bs)
    (hc : fs.cargoToml = some (CargoFile.parsed cargo))
    (hd : (Table.get cargo "dependencies").bind Value.as_table = some deps)
    (hp : Table.contains_key deps "pgrx" = true) :
    (execute cmd fs).1 = ExecOutcome.error BuildError.conflictingOverride ↔
      (bs.version.isSome || bs.name.isSome) = true := by
  have h := execute_specialized cmd fs bs cargo deps hs hc hd hp
  rcases hvn : (bs.version.isSome || bs.name.isSome) with _ | _ <;>
    rw [hvn] at h <;> simp only [if_true, if_false, Bool.false_eq_true] at h <;>
    rw [h] <;> simp

/-- C2 amended witness: an explicit CLI name on a pgrx project fails with
the conflicting-override error. -/
theorem claim_c2_amended_witness :
    (execute c2wcmd fsPgrx).1 = ExecOutcome.error BuildError.conflictingOverride :=
  (claim_c2_amended_conflict_iff c2wcmd fsPgrx c2wbs cargoPgrx depsPgrx
    rfl rfl rfl rfl).mpr rfl

/-- C5: a generic dispatch carries the install vector
/bin/sh, -c, install_command when an install command was resolved, and
make, install (with the warning emitted) when none was. -/
theorem claim_c5_install_invocation (cmd : BuildCommand) (fs : FS)
    (bs : BuildSettings) (df : String) (pl : Option String)
    (inst : List String) (p op n v : String)
    (hs : settings cmd fs.trunkToml = Except.ok bs)
    (hg : (execute cmd fs).1 = ExecOutcome.ok (Dispatch.generic df pl inst p op n v)) :
    (∀ ic, bs.install_command = some ic → inst = ["/bin/sh", "-c", ic]) ∧
    (bs.install_command = none → inst = ["make", "install"] ∧
      Event.warnDefaultInstall ∈ (execute cmd fs).2) := by
  rcases execute_shape cmd fs bs hs with h | ⟨cargo, h⟩ | h | h <;> rw [h] at hg ⊢
  · exact absurd hg (by simp)
  · exact absurd hg (by simp)
  · exact absurd hg (by simp)
  · have hi := genericBranch_ok_inv fs.readFile bs df pl inst p op n v hg
    exact ⟨hi.2.2.1, hi.2.2.2⟩

/-- C5 witness: with install command "pip install ." the vector is the
three-element shell invocation; without one the default run emits the
warning event. -/
theorem claim_c5_witness :
    (["/bin/sh", "-c", "pip install ."] : List String) =
      ["/bin/sh", "-c", "pip install ."] ∧
    Event.warnDefaultInstall ∈ (execute cmdFull fsNoCargo).2 := by
  have h1 := claim_c5_install_invocation c5cmdInstall fsNoCargo c5bsInstall
    dockerfileGenericDefault none ["/bin/sh", "-c", "pip install ."] "proj"
    "proj/.trunk" "foo" "1.0" rfl rfl
  have h2 := claim_c5_install_invocation cmdFull fsNoCargo bsFull
    dockerfileGenericDefault none ["make", "install"] "proj" "proj/.trunk"
    "foo" "1.0" rfl rfl
  exact ⟨h1.1 "pip install ." rfl, (h2.2 rfl).2⟩

/-- C6: on the generic path, the joint absence of name and version fails
with the missing-required-field error, and a generic dispatch only happens
with both present, carrying exactly those values. -/
theorem claim_c6_generic_requires_name_version (cmd : BuildCommand) (fs : FS)
    (bs : BuildSettings)
    (hs : settings cmd fs.trunkToml = Except.ok bs)
    (hg : onGenericPath fs = true) :
    (bs.name = none ∧ bs.version = none →
      (execute cmd fs).1 = ExecOutcome.error BuildError.missingRequiredField) ∧
    (∀ df pl inst p op n v,
      (execute cmd fs).1 = ExecOutcome.ok (Dispatch.generic df pl inst p op n v) →
      bs.name = some n ∧ bs.version = some v) := by
  have h := execute_eq_genericBranch cmd fs bs hs hg
  rw [h]
  constructor
  · rintro ⟨hn, hv⟩
    rw [genericBranch_missing fs.readFile bs hn hv]
  · intro df pl inst p op n v hok
    have hi := genericBranch_ok_inv fs.readFile bs df pl inst p op n v hok
    exact ⟨hi.1, hi.2.1⟩

/-- C6 witness: with neither name nor version the generic path fails with
the missing-required-field error; a dispatched generic build carries the
resolved name "foo" and version "1.0". -/
theorem claim_c6_witness :
    (execute cmdNone fsNoCargo).1 = ExecOutcome.error BuildError.missingRequiredField ∧
    bsFull.name = some "foo" ∧ bsFull.version = some "1.0" := by
  have h1 := (claim_c6_generic_requires_name_version cmdNone fsNoCargo bsNone
    rfl rfl).1 ⟨rfl, rfl⟩
  have h2 := (claim_c6_generic_requires_name_version cmdFull fsNoCargo bsFull
    rfl rfl).2 dockerfileGenericDefault none ["make", "install"] "proj"
    "proj/.trunk" "foo" "1.0" rfl
  exact ⟨h1, h2.1, h2.2⟩

/-- C7 counterexample: the claim says an invalid dependency manifest is
surfaced as a fatal typed error returned to the caller. At this input
Cargo.toml exists and fails to parse, and the run panics (the unwrap on
toml parsing in the source), so no error value is returned to the
caller. -/
theorem claim_c7_counterexample :
    fsCargoInvalid.cargoToml = some CargoFile.invalid ∧
    (execute cmdNone fsCargoInvalid).1 = ExecOutcome.panic ∧
    isErrorOutcome (execute cmdNone fsCargoInvalid).1 = false :=
  ⟨rfl, rfl, rfl⟩

/-- C7 amended: a dependency manifest that exists but is not valid
structured data aborts execution with a panic; it is neither returned as a
typed error nor treated silently as a generic project. -/
theorem claim_c7_amended_parse_failure_panics (cmd : BuildCommand) (fs : FS)
    (bs : BuildSettings)
    (hs : settings cmd fs.trunkToml = Except.ok bs)
    (hc : fs.cargoToml = some CargoFile.invalid) :
    (execute cmd fs).1 = ExecOutcome.panic ∧
    isErrorOutcome (execute cmd fs).1 = false ∧
    isGenericOutcome (execute cmd fs).1 = false := by
  rw [execute_panic_invalid cmd fs bs hs hc]
  exact ⟨rfl, rfl, rfl⟩

/-- C7 amended witness: the concrete invalid-Cargo.toml run panics. -/
theorem claim_c7_amended_witness :
    (execute cmdNone fsCargoInvalid).1 = ExecOutcome.panic :=
  (claim_c7_amended_parse_failure_panics cmdNone fsCargoInvalid bsNone rfl rfl).1

/-- C8: whenever dispatch returns the conflicting-override or
missing-required-field error, no build-definition file has been read and
neither build collaborator has been invoked. -/
theorem claim_c8_validation_before_side_effects (cmd : BuildCommand) (fs : FS)
    (h : (execute cmd fs).1 = ExecOutcome.error BuildError.conflictingOverride ∨
         (execute cmd fs).1 = ExecOutcome.error BuildError.missingRequiredField) :
    ((execute cmd fs).2.all (fun e => !isReadEvent e && !isInvokeEvent e)) = true := by
  rcases hset : settings cmd fs.trunkToml with e | bs
  · rw [execute_settings_error cmd fs e hset]
    rfl
  · rcases execute_shape cmd fs bs hset with hsh | ⟨cargo, hsh⟩ | hsh | hsh <;>
      rw [hsh] at h ⊢
    · rfl
    · exact absurd h (by simp)
    · rfl
    · rcases genericBranch_cases fs.readFile bs with hcase | hcase
      · rw [hcase]
        rfl
      · exact absurd h (by simp [hcase.1, hcase.2])

/-- C8 witness: a conflicting-override run and a missing-required-field
run both finish with no dockerfile read and no collaborator invoked. -/
theorem claim_c8_witness :
    ((execute c2wcmd fsPgrx).2.all (fun e => !isReadEvent e && !isInvokeEvent e)) = true ∧
    ((execute cmdNone fsNoCargo).2.all (fun e => !isReadEvent e && !isInvokeEvent e)) = true :=
  ⟨claim_c8_validation_before_side_effects c2wcmd fsPgrx (Or.inl rfl),
   claim_c8_validation_before_side_effects cmdNone fsNoCargo (Or.inr rfl)⟩

/-- C10: a Cargo.toml that exists but cannot be read, is not valid TOML,
or parses without a top-level dependencies table panics the run instead of
returning a typed error or falling back to the generic path. -/
theorem claim_c10_cargo_unwrap_panics (cmd : BuildCommand) (fs : FS)
    (bs : BuildSettings)
    (hs : settings cmd fs.trunkToml = Except.ok bs)
    (h : fs.cargoToml = some CargoFile.unreadable ∨
         fs.cargoToml = some CargoFile.invalid ∨
         ∃ t, fs.cargoToml = some (CargoFile.parsed t) ∧
           (Table.get t "dependencies").bind Value.as_table = none) :
    (execute cmd fs).1 = ExecOutcome.panic ∧
    isErrorOutcome (execute cmd fs).1 = false ∧
    isGenericOutcome (execute cmd fs).1 = false := by
  rcases h with hc | hc | ⟨t, hc, hd⟩
  · rw [execute_panic_unreadable cmd fs bs hs hc]
    exact ⟨rfl, rfl, rfl⟩
  · rw [execute_panic_invalid cmd fs bs hs hc]
    exact ⟨rfl, rfl, rfl⟩
  · rw [execute_panic_nodeps cmd fs bs t hs hc hd]
    exact ⟨rfl, rfl, rfl⟩

/-- C10 witness: an unreadable Cargo.toml and one without a dependencies
table both panic the run. -/
theorem claim_c10_witness :
    (execute cmdNone fsCargoUnreadable).1 = ExecOutcome.panic ∧
    (execute cmdNone fsCargoNoDeps).1 = ExecOutcome.panic :=
  ⟨(claim_c10_cargo_unwrap_panics cmdNone fsCargoUnreadable bsNone rfl (Or.inl rfl)).1,
   (claim_c10_cargo_unwrap_panics cmdNone fsCargoNoDeps bsNone rfl
     (Or.inr (Or.inr ⟨cargoNoDeps, rfl, rfl⟩))).1⟩

end Trunk
